import Mathlib

/-!
Verification development for the Eyeskimo two-phase eye-diagnosis pipeline.

Shallow embedding of the pipeline core:
  * `schemas.py` — enums and the report data model;
  * `config.py` — the dual-threshold configuration defaults;
  * `models/classify.py` (`ClassifyModel.predict`) — dominant-condition
    selection, dual-threshold status derivation, Grad-CAM triggering;
  * `models/grad_cam.py` (`GradCamGenerator.generate`) — saliency map;
  * `models/segmentation.py` (`SegmentationModel.predict`) — best-box choice;
  * `services/image.py` (`run_yolo_phase`, `run_cnn_phase`) — the two phases;
  * `main.py` (`handle_image_message`, the `confirm_cnn` postback branch) —
    the orchestration around the phases.

External collaborators (GCS uploads with signed URLs, HTTP downloads, the
torch forward/backward pass, pixel-raster rendering) are modelled as
explicit parameters: an upload is a folder-keyed outcome (the code's
`_upload_to_gcs` either raises, or returns a URL string which is `""` when
signed-URL generation fails), a download either raises or yields a decoded
image, and the network forward pass is a record of its numeric outputs.
Probabilities and pixel values are rationals.

`schemas.py` declares `DiagnosticReport` and `CnnResult` as pydantic
models without `extra='allow'`, yet `run_cnn_phase` assigns the undeclared
attributes `original_boxed_url` (image.py:320) and `chart_image_url`
(image.py:333) on them; pydantic rejects such assignments with a
`ValueError`, so the first of them aborts every phase-2 run.  The
embedding models the records with exactly the declared fields and models
that assignment as the raising step it is. -/

namespace Eyeskimo

/-! ### Enums (`schemas.py`) -/

/-- `DiagnosisStatus` from `schemas.py`. -/
inductive DiagnosisStatus where
  | notDetected   -- "Not-Detected"
  | risk          -- "Risk"
  | detected      -- "Detected"
  | unknown       -- "Unknown"
deriving DecidableEq, Repr

/-- `ProcessStatus` from `schemas.py`. -/
inductive ProcessStatus where
  | processingYolo  -- "processing_yolo"
  | waitingUser     -- "waiting_for_user"
  | processingCnn   -- "processing_cnn"
  | completed       -- "completed"
  | failed          -- "failed"
deriving DecidableEq, Repr

/-- `DiseaseType` from `schemas.py`. -/
inductive DiseaseType where
  | cataract
  | conjunctivitis
  | noneType        -- "None"
deriving DecidableEq, Repr

/-! ### Data model (`schemas.py`) -/

/-- `YoloResult` from `schemas.py`.  The bbox is `[x1, y1, x2, y2]`. -/
structure YoloResult where
  is_detected : Bool
  confidence : ℚ
  bbox : Option (Int × Int × Int × Int)
  crop_image_url : Option String
deriving DecidableEq, Repr

/-- `CnnResult` from `schemas.py`: exactly the six declared pydantic
fields.  `ImageService.run_cnn_phase` (step 5) also tries to assign an
undeclared attribute `chart_image_url` on this model; since the model does
not set `extra='allow'`, pydantic rejects such an assignment with a
`ValueError` instead of storing it, so no such field ever exists on a
`CnnResult` value (see `runCnnPhase`). -/
structure CnnResult where
  status : DiagnosisStatus
  disease : DiseaseType
  confidence : ℚ
  prob_cataract : ℚ
  prob_conjunctivitis : ℚ
  heatmap_image_url : Option String
deriving DecidableEq, Repr

/-- `DiagnosticReport` from `schemas.py`: exactly the eight declared
pydantic fields.  `ImageService.run_cnn_phase` (step 4, image.py:320) also
tries to assign an undeclared attribute `original_boxed_url` on this model;
since the model does not set `extra='allow'`, pydantic raises `ValueError`
at that assignment, so no such field ever exists on a report (see
`runCnnPhase`, where that raise is modelled explicitly). -/
structure DiagnosticReport where
  report_id : String
  user_id : String
  timestamp : Int
  current_status : ProcessStatus
  original_image_url : String
  yolo_result : Option YoloResult
  cnn_result : Option CnnResult
  suggestion : Option String
deriving DecidableEq, Repr

/-! ### Configuration defaults (`config.py`) -/

/-- `Settings.AI_CONF_THRESHOLD` default (0.25). -/
def AI_CONF_THRESHOLD : ℚ := 1/4

/-- `Settings.AI_THRESH_LOW` default (0.4). -/
def AI_THRESH_LOW : ℚ := 2/5

/-- `Settings.AI_THRESH_HIGH` default (0.75). -/
def AI_THRESH_HIGH : ℚ := 3/4

/-! ### Status derivation (`models/classify.py`, step 5 of `predict`) -/

/-- The dual-threshold status derivation of `ClassifyModel.predict`:
`if dominant_prob >= high: DETECTED elif dominant_prob >= low: RISK
else: NOT_DETECTED`. -/
def deriveStatus (low high p : ℚ) : DiagnosisStatus :=
  if p ≥ high then .detected
  else if p ≥ low then .risk
  else .notDetected

/-! ### Tensors and pixel rasters

A 2-D tensor slice (one channel, or one grayscale map) is a list of rows of
rationals; a 3-D tensor (channels × height × width) is a list of channels.
A colour raster is a list of rows of BGR pixels. -/

/-- One 2-D map: a list of rows. -/
abbrev Mat := List (List ℚ)

/-- A channels × height × width tensor (the batch dimension of size 1 is
dropped: the code works with `features[0]` and `gradients[0]`). -/
abbrev Tensor3 := List Mat

/-- One BGR pixel. -/
abbrev Pixel3 := ℚ × ℚ × ℚ

/-- A colour raster: a list of rows of BGR pixels. -/
abbrev ColorImg := List (List Pixel3)

/-- Scale every entry of a 2-D map by `c`. -/
def matScale (c : ℚ) (m : Mat) : Mat := m.map (fun row => row.map (fun x => c * x))

/-- Pointwise sum of two 2-D maps (`zipWith`, matching shapes intended). -/
def matAdd (a b : Mat) : Mat := List.zipWith (List.zipWith (· + ·)) a b

/-- Mean of all entries of a 2-D map (`torch.mean` over the full slice):
total sum divided by total entry count. -/
def matMean (m : Mat) : ℚ := (m.map List.sum).sum / ((m.map List.length).sum : ℚ)

/-- Pointwise rectifier (`F.relu`). -/
def matRelu (m : Mat) : Mat := m.map (fun row => row.map (fun x => max x 0))

/-- Maximum entry of a 2-D map (`torch.max`); folded from 0, which agrees
with the tensor maximum on the rectified (entrywise nonnegative) maps this
is applied to. -/
def matMax (m : Mat) : ℚ := (m.map (fun row => row.foldl max 0)).foldl max 0

/-- All entries of a 2-D map are zero. -/
def MatZero (m : Mat) : Prop := ∀ row ∈ m, ∀ x ∈ row, x = 0

/-- All entries of a 3-D tensor are zero. -/
def TensorZero (t : Tensor3) : Prop := ∀ chan ∈ t, MatZero chan

instance (m : Mat) : Decidable (MatZero m) := by
  unfold MatZero; infer_instance

instance (t : Tensor3) : Decidable (TensorZero t) := by
  unfold TensorZero; infer_instance

/-! ### Attribution generator (`models/grad_cam.py`) -/

/-- Step 1 of `GradCamGenerator.generate`: per-channel importance weights,
the spatial mean of each gradient channel
(`torch.mean(gradients, dim=[0, 2, 3])` with batch size 1). -/
def camWeights (gradients : Tensor3) : List ℚ := gradients.map matMean

/-- Step 2: weight each activation channel by the matching gradient weight
(`activation_map[i, :, :] *= pooled_gradients[i]`). -/
def camWeighted (features : Tensor3) (weights : List ℚ) : Tensor3 :=
  (features.zip weights).map (fun p => matScale p.2 p.1)

/-- Mean over the channel dimension (`torch.mean(activation_map, dim=0)`):
pointwise average of the channel maps. -/
def channelMean (chans : Tensor3) : Mat :=
  match chans with
  | [] => []
  | c :: cs => matScale (1 / ((cs.length + 1 : ℕ) : ℚ)) (cs.foldl matAdd c)

/-- Steps 1–3 of `GradCamGenerator.generate`: the rectified
class-activation-weighted heatmap `relu(mean_c (w_c • A_c))`. -/
def camHeatmap (features gradients : Tensor3) : Mat :=
  matRelu (channelMean (camWeighted features (camWeights gradients)))

/-- Step 4 of `GradCamGenerator.generate`: normalize by the maximum unless
the maximum is zero (`if torch.max(heatmap) != 0: heatmap /= torch.max`). -/
def camNormalize (m : Mat) : Mat :=
  if matMax m = 0 then m else matScale (1 / matMax m) m

/-- `GradCamGenerator.generate`: `None` when either input tensor is absent;
otherwise the normalized heatmap is resized to the target size (`cv2.resize`,
modelled by the raster collaborator `resize`) and mapped through the JET
colormap (`cv2.applyColorMap`, modelled pointwise by `cmap`). -/
def gradCamGenerate (cmap : ℚ → Pixel3) (resize : ℕ × ℕ → Mat → Mat)
    (features gradients : Option Tensor3) (targetSize : ℕ × ℕ) : Option ColorImg :=
  match features, gradients with
  | some f, some g =>
      some (((resize targetSize (camNormalize (camHeatmap f g))).map
        (fun row => row.map cmap)))
  | _, _ => none

/-- `cv2.addWeighted(a, wa, b, wb, 0)`: pointwise weighted blend of two
colour rasters. -/
def addWeighted (a : ColorImg) (wa : ℚ) (b : ColorImg) (wb : ℚ) : ColorImg :=
  List.zipWith (List.zipWith (fun p q =>
    (wa * p.1 + wb * q.1, wa * p.2.1 + wb * q.2.1, wa * p.2.2 + wb * q.2.2))) a b

/-! ### Decoded raster images and numpy-style slicing -/

/-- A decoded OpenCV image: a raster of BGR pixels.  Decoded rasters are
rectangular; `shape[:2]` is (number of rows, length of the first row). -/
structure CvImage where
  pixels : ColorImg
deriving DecidableEq, Repr

/-- `shape[0]` of the raster. -/
def CvImage.height (img : CvImage) : ℕ := img.pixels.length

/-- `shape[1]` of the raster. -/
def CvImage.width (img : CvImage) : ℕ := (img.pixels.headD []).length

/-- Resolve one numpy slice index: negative indices count from the end. -/
def npIndex (n : ℕ) (i : Int) : Int := if i < 0 then i + n else i

/-- Resolve and clamp one numpy slice bound into `[0, n]`. -/
def npBound (n : ℕ) (i : Int) : ℕ := (max 0 (min (n : Int) (npIndex n i))).toNat

/-- `xs[a:b]` with numpy slice semantics. -/
def npSlice {α : Type} (xs : List α) (a b : Int) : List α :=
  let lo := npBound xs.length a
  let hi := npBound xs.length b
  (xs.take hi).drop lo

/-- `cv_image[y1:y2, x1:x2]`: slice rows then columns. -/
def cropPixels (img : CvImage) (x1 y1 x2 y2 : Int) : ColorImg :=
  (npSlice img.pixels y1 y2).map (fun row => npSlice row x1 x2)

/-- `ndarray.size` of a 3-channel raster: 3 scalars per pixel. -/
def cvSize (m : ColorImg) : ℕ := 3 * (m.map List.length).sum

/-! ### Classifier (`models/classify.py`, `ClassifyModel.predict`) -/

/-- The numeric outputs of the torch forward/backward pass on one crop
(external collaborator): the two sigmoid probabilities `probs[0]`/`probs[1]`,
the retained feature activations `features[0]`, and the gradient tensor
`features.grad[0]` that `backward()` on the logit of class `target_idx`
produces. -/
structure CnnForward where
  pCat : ℚ
  pConj : ℚ
  features : Tensor3
  gradients : ℕ → Tensor3

/-- Step 4 of `ClassifyModel.predict`: dominant-condition selection
(`if p_cat > p_conj: ... else: ...`), returning
(dominant probability, disease enum, target index). -/
def dominantSelect (pCat pConj : ℚ) : ℚ × DiseaseType × ℕ :=
  if pCat > pConj then (pCat, .cataract, 0) else (pConj, .conjunctivitis, 1)

/-- `ClassifyModel.predict` after the forward pass (steps 4–6): parse the two
probabilities, derive the status via the dual thresholds, and — only when the
status is Risk or Detected — run Grad-CAM on the dominant class's gradients
and blend the colour heatmap with the crop (`cv2.addWeighted(crop, 0.6,
raw_heatmap, 0.4, 0)`).  Returns the `CnnResult` (with `heatmap_image_url`
left `None` for the service layer) and the optional blended heatmap image. -/
def classifyPredict (low high : ℚ) (cmap : ℚ → Pixel3) (resize : ℕ × ℕ → Mat → Mat)
    (fw : CnnForward) (crop : CvImage) : CnnResult × Option ColorImg :=
  let sel := dominantSelect fw.pCat fw.pConj
  let dominantProb := sel.1
  let disease := sel.2.1
  let targetIdx := sel.2.2
  let status := deriveStatus low high dominantProb
  let heatmapImg :=
    if status = .risk ∨ status = .detected then
      match gradCamGenerate cmap resize (some fw.features) (some (fw.gradients targetIdx))
          (crop.height, crop.width) with
      | some rawHeatmap => some (addWeighted crop.pixels (6/10) rawHeatmap (4/10))
      | none => none
    else none
  (⟨status, disease, dominantProb, fw.pCat, fw.pConj, none⟩, heatmapImg)

/-! ### Localizer (`models/segmentation.py`, `SegmentationModel.predict`) -/

/-- One candidate detection as produced by the YOLO library: its confidence
score and its `xyxy` box (already cast to `int` by the code). -/
structure DetBox where
  conf : ℚ
  xyxy : Int × Int × Int × Int
deriving DecidableEq, Repr

/-- The candidates that clear the confidence floor: `model.predict(image,
conf=floor)` discards any candidate whose score is below the floor.  The
library's exact boundary convention is its own; every claim below only uses
the case where all candidates are strictly below the floor, on which any
convention yields the empty list. -/
def confSurvivors (floor : ℚ) (cands : List DetBox) : List DetBox :=
  cands.filter (fun b => floor ≤ b.conf)

/-- `result.boxes.conf.argmax()`: the candidate with maximal confidence,
first one on ties (torch `argmax` returns the first maximal index). -/
def bestBox (b : DetBox) (bs : List DetBox) : DetBox :=
  bs.foldl (fun best c => if c.conf > best.conf then c else best) b

/-- `SegmentationModel.predict`: empty survivor list means a not-found
result with zero confidence and no box; otherwise the highest-confidence
box is returned with `crop_image_url` left for the service layer. -/
def segPredict (floor : ℚ) (cands : List DetBox) : YoloResult :=
  match confSurvivors floor cands with
  | [] => ⟨false, 0, none, none⟩
  | b :: bs => ⟨true, (bestBox b bs).conf, some (bestBox b bs).xyxy, none⟩

/-! ### Storage collaborators (`services/image.py`, `services/database.py`) -/

/-- The blob-store collaborator, keyed by the logical folder of the call
site (`"original"`, `"crops"`, `"heatmaps"`, `"boxed"`, `"charts"`).
`upload` models `_upload_to_gcs`: `none` means the blob upload itself
raised (the exception propagates to the caller); `some url` is the returned
signed URL, which the code makes the **empty string** when both signing
attempts fail after a successful upload.  `download` models
`_download_image_from_url`: `none` means the request raised. -/
structure GcsEnv where
  upload : String → Option String
  download : String → Option CvImage

/-- Python truthiness of an optional URL string: `None` and `""` are falsy. -/
def truthyStr : Option String → Bool
  | none => false
  | some s => !(s == "")

/-- The crop handle stored on a report. -/
def cropHandle (r : DiagnosticReport) : Option String :=
  r.yolo_result.bind (fun y => y.crop_image_url)

/-! ### Phase 1 (`ImageService.run_yolo_phase`) -/

/-- How `run_yolo_phase` can raise: undecodable bytes
(`_bytes_to_cv2` raises `ValueError`), or a propagated upload exception. -/
inductive YoloPhaseError where
  | decodeFailed
  | originalUploadRaised
  | cropUploadRaised
deriving DecidableEq, Repr

/-- The "safe crop" of `run_yolo_phase`: clamp `(x1,y1)` up to `(0,0)`
(`max(0, x1), max(0, y1)`) and `(x2,y2)` down to `(width, height)`
(`min(w, x2), min(h, y2)`), then slice `cv_image[y1:y2, x1:x2]`. -/
def clampedCrop (img : CvImage) (x1 y1 x2 y2 : Int) : ColorImg :=
  cropPixels img (max 0 x1) (max 0 y1) (min (img.width : Int) x2)
    (min (img.height : Int) y2)

/-- `ImageService.run_yolo_phase`.  `decoded` is the outcome of
`_bytes_to_cv2` on the message bytes; `yolo` is the localizer collaborator.
On a detected box the code clamps and slices the crop (`clampedCrop`), and
only a crop of positive size (`crop_img.size > 0`) is uploaded and moves
the report to `waiting_for_user`; an empty crop or a not-found result ends
in `failed` with no crop upload attempted. -/
def runYoloPhase (env : GcsEnv) (userId reportId : String) (ts : Int)
    (decoded : Option CvImage) (yolo : CvImage → YoloResult) :
    Except YoloPhaseError DiagnosticReport :=
  match decoded with
  | none => .error .decodeFailed
  | some img =>
    match env.upload "original" with
    | none => .error .originalUploadRaised
    | some originalUrl =>
      match (yolo img).is_detected, (yolo img).bbox with
      | true, some (x1, y1, x2, y2) =>
          if cvSize (clampedCrop img x1 y1 x2 y2) > 0 then
            match env.upload "crops" with
            | none => .error .cropUploadRaised
            | some cropUrl =>
                .ok ⟨reportId, userId, ts, .waitingUser, originalUrl,
                      some { yolo img with crop_image_url := some cropUrl },
                      none, none⟩
          else
            .ok ⟨reportId, userId, ts, .failed, originalUrl, some (yolo img),
                  none, none⟩
      | _, _ =>
          .ok ⟨reportId, userId, ts, .failed, originalUrl, some (yolo img),
                none, none⟩

/-! ### Phase 2 (`ImageService.run_cnn_phase`) -/

/-- How `run_cnn_phase` can fail, in program order: the explicit
`ValueError` when the report has no yolo result or a falsy crop URL; a
raising collaborator call at each later step; and finally — always, once
the boxed upload has succeeded — the pydantic `ValueError` raised by the
assignment `report.original_boxed_url = ...` (image.py:320), because
`DiagnosticReport` declares no such field and extra attributes are not
allowed. -/
inductive CnnPhaseError where
  | missingCrop
  | cropDownloadFailed
  | heatmapUploadRaised
  | originalDownloadFailed
  | boxedUploadRaised
  | boxedFieldRaised
deriving DecidableEq, Repr

/-- Step 3 of `run_cnn_phase`: when the classifier returned a heatmap
image, upload it and store its signed URL on the result
(`cnn_result_obj.heatmap_image_url = self._upload_to_gcs(...)` —
`heatmap_image_url` *is* a declared `CnnResult` field, so this assignment
succeeds); a raising upload propagates. -/
def cnnStepHeat (env : GcsEnv) (res : CnnResult × Option ColorImg) :
    Except CnnPhaseError CnnResult :=
  match res.2 with
  | some _ =>
      match env.upload "heatmaps" with
      | none => .error .heatmapUploadRaised
      | some u => .ok { res.1 with heatmap_image_url := some u }
  | none => .ok res.1

/-- `ImageService.run_cnn_phase`.  `cnn` is `ai_manager.cnn.predict`.
The crop URL gate (`if not report.yolo_result or not
report.yolo_result.crop_image_url: raise ValueError`) rejects a missing
yolo result, a `None` crop URL and an empty crop URL alike.  After the CNN,
the heatmap (when present) is uploaded and its URL stored on the result;
then the original is downloaded, the boxed original is built and uploaded
(the right-hand side of image.py:320 runs first), and the assignment
`report.original_boxed_url = ...` **raises `ValueError`**: pydantic
rejects setting an attribute that `DiagnosticReport` does not declare
(extra is not `'allow'`).  Everything after that line — the chart
generation of step 5 (whose own `cnn_result_obj.chart_image_url = ...`
assignment would equally raise, `CnnResult` declaring no such field), the
`report.cnn_result` / `report.current_status` assignments and the
`return` — is unreachable: `run_cnn_phase` never returns normally. -/
def runCnnPhase (env : GcsEnv) (cnn : CvImage → CnnResult × Option ColorImg)
    (report : DiagnosticReport) : Except CnnPhaseError DiagnosticReport :=
  match report.yolo_result with
  | none => .error .missingCrop
  | some y =>
    if truthyStr y.crop_image_url then
      match env.download (y.crop_image_url.getD "") with
      | none => .error .cropDownloadFailed
      | some cropImg =>
        match cnnStepHeat env (cnn cropImg) with
        | .error e => .error e
        | .ok _cnnRes1 =>
          match env.download report.original_image_url with
          | none => .error .originalDownloadFailed
          | some _ =>
            match env.upload "boxed" with
            | none => .error .boxedUploadRaised
            | some _boxedUrl => .error .boxedFieldRaised
    else .error .missingCrop

/-- Whether the Classifier was actually invoked during a phase-2 attempt:
`run_cnn_phase` calls `ai_manager.cnn.predict` after the crop gate and the
crop download, and before every later step. -/
def classifierRan : Except CnnPhaseError DiagnosticReport → Bool
  | .error .missingCrop => false
  | .error .cropDownloadFailed => false
  | _ => true

/-! ### Orchestration (`main.py`) -/

/-- The user-visible outcome of an event handler, abstracting the LINE
replies of `main.py`: the crop-confirmation card, the retake prompt
("未能辨認眼睛特徵…"), the generic error reply of an `except` block, the
"record not found" reply ("找不到此診斷紀錄…"), and the final analysis
result card. -/
inductive UserReply where
  | confirmCard
  | retakePrompt
  | errorMsg
  | notFoundMsg
  | analysisResult
deriving DecidableEq, Repr

/-- `handle_image_message`: run phase 1, save the report, then reply with
the confirmation card when a region was detected or the retake prompt
otherwise.  Any exception is caught: the user gets an error reply and
nothing is saved.  The first component is the report passed to
`db_service.save_report` (if any). -/
def handleImageMessage (env : GcsEnv) (userId reportId : String) (ts : Int)
    (decoded : Option CvImage) (yolo : CvImage → YoloResult) :
    Option DiagnosticReport × UserReply :=
  match runYoloPhase env userId reportId ts decoded yolo with
  | .error _ => (none, .errorMsg)
  | .ok report =>
      if (report.yolo_result.map (fun y => y.is_detected)).getD false then
        (some report, .confirmCard)
      else
        (some report, .retakePrompt)

/-- Outcome of the `confirm_cnn` postback branch: which report was saved
back to the record store (if any), the reply sent, and whether
`ai_manager.cnn.predict` was invoked during the attempt. -/
structure ConfirmOutcome where
  savedReport : Option DiagnosticReport
  reply : UserReply
  classifierInvoked : Bool
deriving DecidableEq, Repr

/-- The `action == "confirm_cnn"` branch of `handle_postback`: load the
report from the record store (`db_service.get_report`, `None` when the id
is unknown); reply "not found" and stop when it is missing; otherwise run
phase 2 — with no inspection of `current_status` — saving and replying
with the final report on success, or replying with the generic error
message when `run_cnn_phase` raises.  (The handler's success branch exists
in `main.py` but is unreachable: `run_cnn_phase` never returns normally,
see `runCnnPhase` and `runCnnPhase_never_ok`.) -/
def confirmCnn (env : GcsEnv) (cnn : CvImage → CnnResult × Option ColorImg)
    (store : String → Option DiagnosticReport) (reportId : String) : ConfirmOutcome :=
  match store reportId with
  | none => ⟨none, .notFoundMsg, false⟩
  | some report =>
      match runCnnPhase env cnn report with
      | .ok finalReport => ⟨some finalReport, .analysisResult, true⟩
      | .error e => ⟨none, .errorMsg, classifierRan (.error e)⟩

/-! ### The shape of stored reports

The record store only ever receives reports produced by `run_yolo_phase`
(saved by `handle_image_message`) or by `run_cnn_phase` (saved by the
`confirm_cnn` branch).  `StoredWellFormed` captures the three consequences
used below: a stored status is `waiting_for_user`, `failed` or `completed`;
a `failed` report has no usable crop handle (the crop URL is only attached
on the `waiting_for_user` path); and a usable crop handle only exists on a
report whose detection found a region. -/
def StoredWellFormed (r : DiagnosticReport) : Prop :=
  (r.current_status = .waitingUser ∨ r.current_status = .failed ∨
    r.current_status = .completed)
  ∧ (r.current_status = .failed → truthyStr (cropHandle r) = false)
  ∧ (∀ y, r.yolo_result = some y → truthyStr y.crop_image_url = true →
      y.is_detected = true)

/-! ### Helper lemmas: the all-zero saliency map -/

theorem listZero_zipWithAdd {r s : List ℚ} (hr : ∀ x ∈ r, x = 0)
    (hs : ∀ x ∈ s, x = 0) : ∀ x ∈ List.zipWith (· + ·) r s, x = 0 := by
  induction r generalizing s with
  | nil => simp
  | cons a as ih =>
      cases s with
      | nil => simp
      | cons b bs =>
          intro x hx
          simp only [List.zipWith, List.mem_cons] at hx
          rcases hx with h | h
          · rw [h, hr a (List.mem_cons_self a as), hs b (List.mem_cons_self b bs), add_zero]
          · exact ih (fun x hx => hr x (List.mem_cons_of_mem a hx))
              (fun x hx => hs x (List.mem_cons_of_mem b hx)) x h

theorem matZero_matAdd {a b : Mat} (ha : MatZero a) (hb : MatZero b) :
    MatZero (matAdd a b) := by
  unfold matAdd
  induction a generalizing b with
  | nil => intro row hrow; simp at hrow
  | cons r rs ih =>
      cases b with
      | nil => intro row hrow; simp at hrow
      | cons s ss =>
          intro row hrow
          simp only [List.zipWith, List.mem_cons] at hrow
          rcases hrow with h | h
          · rw [h]
            exact listZero_zipWithAdd (ha r (List.mem_cons_self r rs))
              (hb s (List.mem_cons_self s ss))
          · exact ih (fun m hm => ha m (List.mem_cons_of_mem r hm))
              (fun m hm => hb m (List.mem_cons_of_mem s hm)) row h

theorem matZero_matScale {m : Mat} (c : ℚ) (hm : MatZero m) :
    MatZero (matScale c m) := by
  intro row hrow x hx
  unfold matScale at hrow
  rcases List.mem_map.mp hrow with ⟨r, hr, rfl⟩
  rcases List.mem_map.mp hx with ⟨v, hv, rfl⟩
  rw [hm r hr v hv, mul_zero]

theorem matZero_matScale_zero (m : Mat) : MatZero (matScale 0 m) := by
  intro row hrow x hx
  unfold matScale at hrow
  rcases List.mem_map.mp hrow with ⟨r, hr, rfl⟩
  rcases List.mem_map.mp hx with ⟨v, hv, rfl⟩
  rw [zero_mul]

theorem matZero_foldl_matAdd {ms : List Mat} {init : Mat} (hinit : MatZero init)
    (hms : ∀ m ∈ ms, MatZero m) : MatZero (ms.foldl matAdd init) := by
  induction ms generalizing init with
  | nil => exact hinit
  | cons m ms ih =>
      exact ih (matZero_matAdd hinit (hms m (List.mem_cons_self m ms)))
        (fun n hn => hms n (List.mem_cons_of_mem m hn))

theorem matMean_zero {m : Mat} (hm : MatZero m) : matMean m = 0 := by
  unfold matMean
  have hsum : (m.map List.sum).sum = 0 := by
    apply List.sum_eq_zero
    intro x hx
    rcases List.mem_map.mp hx with ⟨r, hr, rfl⟩
    exact List.sum_eq_zero (hm r hr)
  rw [hsum, zero_div]

theorem camWeights_zero {g : Tensor3} (hg : TensorZero g) :
    ∀ w ∈ camWeights g, w = 0 := by
  intro w hw
  unfold camWeights at hw
  rcases List.mem_map.mp hw with ⟨chan, hchan, rfl⟩
  exact matMean_zero (hg chan hchan)

theorem camWeighted_zero {f g : Tensor3} (hg : TensorZero g) :
    ∀ chan ∈ camWeighted f (camWeights g), MatZero chan := by
  intro chan hchan
  unfold camWeighted at hchan
  rcases List.mem_map.mp hchan with ⟨p, hp, rfl⟩
  have hw : p.2 = 0 := camWeights_zero hg p.2 (List.of_mem_zip hp).2
  rw [hw]
  exact matZero_matScale_zero p.1

theorem channelMean_zero {chans : Tensor3} (h : ∀ c ∈ chans, MatZero c) :
    MatZero (channelMean chans) := by
  unfold channelMean
  cases chans with
  | nil => intro row hrow; simp at hrow
  | cons c cs =>
      exact matZero_matScale _
        (matZero_foldl_matAdd (h c (List.mem_cons_self c cs))
          (fun m hm => h m (List.mem_cons_of_mem c hm)))

theorem matZero_matRelu {m : Mat} (hm : MatZero m) : MatZero (matRelu m) := by
  intro row hrow x hx
  unfold matRelu at hrow
  rcases List.mem_map.mp hrow with ⟨r, hr, rfl⟩
  rcases List.mem_map.mp hx with ⟨v, hv, rfl⟩
  rw [hm r hr v hv]
  simp

theorem camHeatmap_zero {f g : Tensor3} (hg : TensorZero g) :
    MatZero (camHeatmap f g) := by
  unfold camHeatmap
  exact matZero_matRelu (channelMean_zero (camWeighted_zero hg))

theorem listFoldlMax_zero {l : List ℚ} (h : ∀ x ∈ l, x = 0) :
    l.foldl max 0 = 0 := by
  induction l with
  | nil => rfl
  | cons a as ih =>
      have ha : a = 0 := h a (List.mem_cons_self a as)
      simp only [List.foldl, ha, max_self]
      exact ih (fun x hx => h x (List.mem_cons_of_mem a hx))

theorem matMax_zero {m : Mat} (hm : MatZero m) : matMax m = 0 := by
  unfold matMax
  apply listFoldlMax_zero
  intro x hx
  rcases List.mem_map.mp hx with ⟨r, hr, rfl⟩
  exact listFoldlMax_zero (hm r hr)

theorem camNormalize_zero {m : Mat} (hm : MatZero m) :
    camNormalize m = m := by
  unfold camNormalize
  rw [if_pos (matMax_zero hm)]

/-! ### Helper lemmas: classifier and status derivation -/

theorem deriveStatus_cases (low high p : ℚ) :
    deriveStatus low high p = .detected ∨ deriveStatus low high p = .risk ∨
    deriveStatus low high p = .notDetected := by
  unfold deriveStatus
  split_ifs <;> simp

theorem classifyPredict_fst (low high : ℚ) (cmap : ℚ → Pixel3)
    (resize : ℕ × ℕ → Mat → Mat) (fw : CnnForward) (crop : CvImage) :
    (classifyPredict low high cmap resize fw crop).1 =
      ⟨deriveStatus low high (dominantSelect fw.pCat fw.pConj).1,
        (dominantSelect fw.pCat fw.pConj).2.1,
        (dominantSelect fw.pCat fw.pConj).1, fw.pCat, fw.pConj, none⟩ := by
  unfold classifyPredict
  simp

theorem classifyPredict_heat_none (low high : ℚ) (cmap : ℚ → Pixel3)
    (resize : ℕ × ℕ → Mat → Mat) (fw : CnnForward) (crop : CvImage)
    (h : (classifyPredict low high cmap resize fw crop).1.status = .notDetected) :
    (classifyPredict low high cmap resize fw crop).2 = none := by
  rw [classifyPredict_fst] at h
  simp only [] at h
  unfold classifyPredict
  simp only []
  rw [if_neg]
  rw [h]
  simp

theorem classifyPredict_heat_some (low high : ℚ) (cmap : ℚ → Pixel3)
    (resize : ℕ × ℕ → Mat → Mat) (fw : CnnForward) (crop : CvImage)
    (h : (classifyPredict low high cmap resize fw crop).1.status = .risk ∨
         (classifyPredict low high cmap resize fw crop).1.status = .detected) :
    (classifyPredict low high cmap resize fw crop).2.isSome = true := by
  rw [classifyPredict_fst] at h
  unfold classifyPredict
  simp only []
  rw [if_pos h]
  unfold gradCamGenerate
  simp

/-! ### Helper lemmas: phase-2 failure analysis -/

/-- A report whose crop handle is falsy (absent or empty) is rejected by the
phase-2 gate with the `ValueError`, before the classifier is reached. -/
theorem runCnnPhase_missingCrop {report : DiagnosticReport}
    (h : truthyStr (cropHandle report) = false)
    (env : GcsEnv) (cnn : CvImage → CnnResult × Option ColorImg) :
    runCnnPhase env cnn report = .error .missingCrop := by
  unfold runCnnPhase
  cases hy : report.yolo_result with
  | none => rfl
  | some y =>
      unfold cropHandle at h
      rw [hy] at h
      have h' : truthyStr y.crop_image_url = false := h
      simp [hy, h']

theorem cnnStepHeat_error_inv {env : GcsEnv} {res : CnnResult × Option ColorImg}
    {e : CnnPhaseError} (h : cnnStepHeat env res = .error e) :
    e = .heatmapUploadRaised := by
  unfold cnnStepHeat at h
  split at h
  · split at h
    · cases h; rfl
    · cases h
  · cases h

/-- `run_cnn_phase` never returns normally: every path ends in a raise, at
the latest the pydantic `ValueError` of the undeclared-field assignment
`report.original_boxed_url = ...` (image.py:320). -/
theorem runCnnPhase_never_ok (env : GcsEnv)
    (cnn : CvImage → CnnResult × Option ColorImg) (report : DiagnosticReport) :
    ∃ e : CnnPhaseError, runCnnPhase env cnn report = .error e := by
  cases hy : report.yolo_result with
  | none =>
      refine ⟨.missingCrop, runCnnPhase_missingCrop ?_ env cnn⟩
      unfold cropHandle
      rw [hy]
      rfl
  | some y =>
    cases ht : truthyStr y.crop_image_url with
    | false =>
        refine ⟨.missingCrop, runCnnPhase_missingCrop ?_ env cnn⟩
        unfold cropHandle
        rw [hy]
        exact ht
    | true =>
      unfold runCnnPhase
      rw [hy]
      simp only [ht, if_true]
      cases hd : env.download (y.crop_image_url.getD "") with
      | none => exact ⟨.cropDownloadFailed, rfl⟩
      | some img =>
        dsimp only
        cases hh : cnnStepHeat env (cnn img) with
        | error e => exact ⟨e, rfl⟩
        | ok c1 =>
          dsimp only
          cases env.download report.original_image_url with
          | none => exact ⟨.originalDownloadFailed, rfl⟩
          | some _ =>
            dsimp only
            cases env.upload "boxed" with
            | none => exact ⟨.boxedUploadRaised, rfl⟩
            | some u => exact ⟨.boxedFieldRaised, rfl⟩

/-- Once the crop gate passes and the crop download succeeds,
`run_cnn_phase` always reaches the `ai_manager.cnn.predict` call: every
later failure — including the unconditional undeclared-field raise —
happens after the classifier ran. -/
theorem runCnnPhase_classifier_reached
    (cnn : CvImage → CnnResult × Option ColorImg)
    {env : GcsEnv} {report : DiagnosticReport} {y : YoloResult} {img : CvImage}
    (hy : report.yolo_result = some y)
    (ht : truthyStr y.crop_image_url = true)
    (hd : env.download (y.crop_image_url.getD "") = some img) :
    classifierRan (runCnnPhase env cnn report) = true := by
  unfold runCnnPhase
  rw [hy]
  simp only [ht, if_true, hd]
  cases hh : cnnStepHeat env (cnn img) with
  | error e => rw [cnnStepHeat_error_inv hh]; rfl
  | ok c1 =>
    dsimp only
    cases env.download report.original_image_url with
    | none => rfl
    | some _ =>
      dsimp only
      cases env.upload "boxed" with
      | none => rfl
      | some u => rfl

/-! ### Helper lemmas: phase-1 outputs -/

/-- Every report a successful `run_yolo_phase` hands to `save_report` has
the stored shape, and carries no classification fragment yet.  The
hypothesis records that the localizer collaborator leaves
`crop_image_url = None` (as `SegmentationModel.predict` does); the crop URL
is attached only by the service on the `waiting_for_user` path. -/
theorem runYoloPhase_ok_wellFormed {env : GcsEnv} {userId reportId : String}
    {ts : Int} {decoded : Option CvImage} {yolo : CvImage → YoloResult}
    {r : DiagnosticReport}
    (hcrop : ∀ im, (yolo im).crop_image_url = none)
    (h : runYoloPhase env userId reportId ts decoded yolo = .ok r) :
    StoredWellFormed r ∧ r.cnn_result = none ∧
    (r.current_status = .waitingUser ∨ r.current_status = .failed) := by
  unfold runYoloPhase at h
  split at h
  · cases h
  rename_i img
  split at h
  · cases h
  rename_i originalUrl hup
  split at h
  case h_2 => -- not detected / no bbox: FAILED, yolo result unchanged
    cases h
    refine ⟨⟨Or.inr (Or.inl rfl), fun _ => ?_, fun y hy htr => ?_⟩, rfl, Or.inr rfl⟩
    · simp only [cropHandle, Option.bind, hcrop img]
      rfl
    · cases hy
      rw [hcrop img] at htr
      cases htr
  case h_1 x1 y1 x2 y2 hdet hbb =>
    split at h
    case isTrue hsz =>
      split at h
      · cases h
      rename_i cropUrl hupc
      cases h
      refine ⟨⟨Or.inl rfl, fun hst => ?_, fun y hy htr => ?_⟩, rfl, Or.inl rfl⟩
      · cases hst
      · cases hy
        exact hdet
    case isFalse hsz =>
      cases h
      refine ⟨⟨Or.inr (Or.inl rfl), fun _ => ?_, fun y hy htr => ?_⟩, rfl, Or.inr rfl⟩
      · simp only [cropHandle, Option.bind, hcrop img]
        rfl
      · cases hy
        rw [hcrop img] at htr
        cases htr

/-! ### Claim theorems

Batteries marks the `Rat` arithmetic operations irreducible, which blocks
`decide`-style evaluation of the embedded functions on concrete rational
inputs; restore the default reducibility so concrete witnesses can be
checked by evaluation. -/

set_option allowUnsafeReducibility true

attribute [semireducible] Rat.mul Rat.add Rat.inv Rat.sub

/-- C1: For every dominant probability `p`, the status derivation of
`ClassifyModel.predict` satisfies: `p < low` gives Not-Detected,
`low ≤ p < high` gives Risk, `p ≥ high` gives Detected; the boundary values
`p = low` and `p = high` fall into the higher bucket (Risk and Detected). -/
theorem C1_dual_threshold_status (low high p : ℚ) (hlh : low ≤ high) :
    (p < low → deriveStatus low high p = .notDetected) ∧
    (low ≤ p → p < high → deriveStatus low high p = .risk) ∧
    (p ≥ high → deriveStatus low high p = .detected) := by
  unfold deriveStatus
  refine ⟨fun h1 => ?_, fun h2 h3 => ?_, fun h4 => ?_⟩
  · rw [if_neg (by simp only [ge_iff_le, not_le]; linarith),
        if_neg (by simp only [ge_iff_le, not_le]; linarith)]
  · rw [if_neg (by simp only [ge_iff_le, not_le]; linarith), if_pos h2]
  · rw [if_pos h4]

/-- Witness for C1 at the default thresholds (`low = 0.4`, `high = 0.75`)
and the boundary `p = high` of Scenario C: the status is Detected. -/
theorem C1_dual_threshold_status_witness :
    deriveStatus AI_THRESH_LOW AI_THRESH_HIGH (3/4) = .detected :=
  (C1_dual_threshold_status AI_THRESH_LOW AI_THRESH_HIGH (3/4)
    (by norm_num [AI_THRESH_LOW, AI_THRESH_HIGH])).2.2
    (by norm_num [AI_THRESH_HIGH])

/-- C10: `ClassifyModel.predict` selects the dominant condition with a
strict comparison favouring cataract (`if p_cat > p_conj`), so an exact tie
deterministically yields Conjunctivitis; the reported confidence is
`max(p_cat, p_conj)` and both raw probabilities are stored unchanged. -/
theorem C10_dominant_selection (low high : ℚ) (cmap : ℚ → Pixel3)
    (resize : ℕ × ℕ → Mat → Mat) (fw : CnnForward) (crop : CvImage) :
    (fw.pCat = fw.pConj →
      (classifyPredict low high cmap resize fw crop).1.disease = .conjunctivitis) ∧
    (fw.pCat > fw.pConj →
      (classifyPredict low high cmap resize fw crop).1.disease = .cataract) ∧
    (fw.pCat ≤ fw.pConj →
      (classifyPredict low high cmap resize fw crop).1.disease = .conjunctivitis) ∧
    (classifyPredict low high cmap resize fw crop).1.confidence =
      max fw.pCat fw.pConj ∧
    (classifyPredict low high cmap resize fw crop).1.prob_cataract = fw.pCat ∧
    (classifyPredict low high cmap resize fw crop).1.prob_conjunctivitis =
      fw.pConj := by
  rw [classifyPredict_fst]
  unfold dominantSelect
  by_cases hgt : fw.pCat > fw.pConj
  · rw [if_pos hgt]
    refine ⟨fun heq => ?_, fun _ => rfl, fun hle => ?_, ?_, rfl, rfl⟩
    · rw [heq] at hgt; exact absurd hgt (lt_irrefl _)
    · exact absurd hgt (not_lt.mpr hle)
    · exact (max_eq_left (le_of_lt hgt)).symm
  · rw [if_neg hgt]
    refine ⟨fun _ => rfl, fun h => absurd h hgt, fun _ => rfl, ?_, rfl, rfl⟩
    · exact (max_eq_right (not_lt.mp hgt)).symm

/-- Witness for C10 at an exact tie `p_cat = p_conj = 1/2`: the dominant
condition is Conjunctivitis and the confidence is `1/2`. -/
theorem C10_dominant_selection_witness :
    (classifyPredict AI_THRESH_LOW AI_THRESH_HIGH (fun q => (q, q, q))
        (fun _ m => m) ⟨1/2, 1/2, [], fun _ => []⟩ ⟨[]⟩).1.disease =
      .conjunctivitis :=
  (C10_dominant_selection AI_THRESH_LOW AI_THRESH_HIGH (fun q => (q, q, q))
    (fun _ m => m) ⟨1/2, 1/2, [], fun _ => []⟩ ⟨[]⟩).1 rfl

theorem confSurvivors_nil {floor : ℚ} {cands : List DetBox}
    (hall : ∀ b ∈ cands, b.conf < floor) : confSurvivors floor cands = [] := by
  unfold confSurvivors
  rw [List.filter_eq_nil_iff]
  intro b hb
  simp only [decide_eq_true_eq, not_le]
  exact hall b hb

/-- C5: when no candidate clears the confidence floor, the localizer
returns the not-found **value** `⟨found=false, confidence=0, bbox=None,
crop=None⟩` (not an exception); `handle_image_message` then saves a
`failed` report and asks the user to resubmit, and the Classifier can
never run on that report — any phase-2 attempt stops at the crop gate
before `cnn.predict` is reached. -/
theorem C5_not_found_is_value (floor : ℚ) (cands : List DetBox) (env : GcsEnv)
    (userId reportId : String) (ts : Int) (img : CvImage) (originalUrl : String)
    (hall : ∀ b ∈ cands, b.conf < floor)
    (hup : env.upload "original" = some originalUrl) :
    segPredict floor cands = ⟨false, 0, none, none⟩ ∧
    handleImageMessage env userId reportId ts (some img)
        (fun _ => segPredict floor cands) =
      (some ⟨reportId, userId, ts, .failed, originalUrl,
        some ⟨false, 0, none, none⟩, none, none⟩, .retakePrompt) ∧
    (∀ env' cnn,
      runCnnPhase env' cnn ⟨reportId, userId, ts, .failed, originalUrl,
          some ⟨false, 0, none, none⟩, none, none⟩ = .error .missingCrop ∧
      classifierRan (runCnnPhase env' cnn ⟨reportId, userId, ts, .failed,
          originalUrl, some ⟨false, 0, none, none⟩, none, none⟩) = false) := by
  have hseg : segPredict floor cands = ⟨false, 0, none, none⟩ := by
    unfold segPredict
    rw [confSurvivors_nil hall]
  refine ⟨hseg, ?_, ?_⟩
  · unfold handleImageMessage runYoloPhase
    simp [hseg, hup]
  · intro env' cnn
    have hmc : runCnnPhase env' cnn ⟨reportId, userId, ts, .failed, originalUrl,
        some ⟨false, 0, none, none⟩, none, none⟩ = .error .missingCrop :=
      runCnnPhase_missingCrop (by rfl) env' cnn
    exact ⟨hmc, by rw [hmc]; rfl⟩

/-- Witness for C5: one candidate at confidence `0.2` below the default
floor `0.25` on a 1×1 image. -/
theorem C5_not_found_is_value_witness :
    segPredict AI_CONF_THRESHOLD [⟨1/5, (0, 0, 1, 1)⟩] = ⟨false, 0, none, none⟩ ∧
    handleImageMessage ⟨fun _ => some "o", fun _ => none⟩ "u" "r" 0
        (some ⟨[[(0, 0, 0)]]⟩)
        (fun _ => segPredict AI_CONF_THRESHOLD [⟨1/5, (0, 0, 1, 1)⟩]) =
      (some ⟨"r", "u", 0, .failed, "o", some ⟨false, 0, none, none⟩,
        none, none⟩, .retakePrompt) :=
  ⟨(C5_not_found_is_value AI_CONF_THRESHOLD [⟨1/5, (0, 0, 1, 1)⟩]
      ⟨fun _ => some "o", fun _ => none⟩ "u" "r" 0 ⟨[[(0, 0, 0)]]⟩ "o"
      (by intro b hb; simp at hb; rw [hb]; norm_num [AI_CONF_THRESHOLD]) rfl).1,
   (C5_not_found_is_value AI_CONF_THRESHOLD [⟨1/5, (0, 0, 1, 1)⟩]
      ⟨fun _ => some "o", fun _ => none⟩ "u" "r" 0 ⟨[[(0, 0, 0)]]⟩ "o"
      (by intro b hb; simp at hb; rw [hb]; norm_num [AI_CONF_THRESHOLD]) rfl).2.1⟩

/-- C8: on a detected box `run_yolo_phase` slices using the clamped
coordinates, which satisfy `(x1,y1) ≥ (0,0)` and `(x2,y2) ≤ (width,
height)`; and when the clamped region has zero area the phase does not
crash: it returns normally with a `failed` report — the very report the
not-found branch produces — and never attempts the crop upload. -/
theorem C8_clamped_crop (env : GcsEnv) (userId reportId : String) (ts : Int)
    (img : CvImage) (yolo : CvImage → YoloResult) (x1 y1 x2 y2 : Int)
    (originalUrl : String)
    (hup : env.upload "original" = some originalUrl)
    (hdet : (yolo img).is_detected = true)
    (hbb : (yolo img).bbox = some (x1, y1, x2, y2)) :
    ((0 : Int) ≤ max 0 x1 ∧ (0 : Int) ≤ max 0 y1 ∧
      min (img.width : Int) x2 ≤ (img.width : Int) ∧
      min (img.height : Int) y2 ≤ (img.height : Int)) ∧
    (cvSize (clampedCrop img x1 y1 x2 y2) = 0 →
      runYoloPhase env userId reportId ts (some img) yolo =
        .ok ⟨reportId, userId, ts, .failed, originalUrl, some (yolo img),
              none, none⟩) := by
  refine ⟨⟨le_max_left 0 x1, le_max_left 0 y1, min_le_left _ _,
    min_le_left _ _⟩, fun hsz => ?_⟩
  unfold runYoloPhase
  simp [hup, hdet, hbb, hsz]

/-- Witness for C8: box `(3,3,5,5)` on a 2×2 image clamps to `(3,3,2,2)`,
a zero-area region; the phase returns a `failed` report. -/
theorem C8_clamped_crop_witness :
    runYoloPhase ⟨fun _ => some "o", fun _ => none⟩ "u" "r" 0
        (some ⟨[[(0, 0, 0), (0, 0, 0)], [(0, 0, 0), (0, 0, 0)]]⟩)
        (fun _ => ⟨true, 1, some (3, 3, 5, 5), none⟩) =
      .ok ⟨"r", "u", 0, .failed, "o",
            some ⟨true, 1, some (3, 3, 5, 5), none⟩, none, none⟩ :=
  (C8_clamped_crop ⟨fun _ => some "o", fun _ => none⟩ "u" "r" 0
      ⟨[[(0, 0, 0), (0, 0, 0)], [(0, 0, 0), (0, 0, 0)]]⟩
      (fun _ => ⟨true, 1, some (3, 3, 5, 5), none⟩) 3 3 5 5 "o"
      rfl rfl rfl).2 (by decide)

/-- C6: with an all-zero gradient tensor, the weighted-and-rectified
heatmap of `GradCamGenerator.generate` has maximum zero, so the
normalization guard skips the division (the map is returned unchanged) and
the saliency map is all zeros; `generate` still produces a colour image,
and `ClassifyModel.predict` still produces a blended heatmap image whenever
the status is not Not-Detected. -/
theorem C6_zero_gradient_guard (f g : Tensor3) (hg : TensorZero g) :
    matMax (camHeatmap f g) = 0 ∧
    camNormalize (camHeatmap f g) = camHeatmap f g ∧
    MatZero (camNormalize (camHeatmap f g)) ∧
    (∀ cmap resize ts,
      (gradCamGenerate cmap resize (some f) (some g) ts).isSome = true) ∧
    (∀ low high cmap resize crop (pC pCj : ℚ),
      deriveStatus low high (dominantSelect pC pCj).1 ≠ .notDetected →
      (classifyPredict low high cmap resize ⟨pC, pCj, f, fun _ => g⟩
        crop).2.isSome = true) := by
  have hz : MatZero (camHeatmap f g) := camHeatmap_zero hg
  have hmax : matMax (camHeatmap f g) = 0 := matMax_zero hz
  have hnorm : camNormalize (camHeatmap f g) = camHeatmap f g :=
    camNormalize_zero hz
  refine ⟨hmax, hnorm, by rw [hnorm]; exact hz, fun cmap resize ts => rfl,
    fun low high cmap resize crop pC pCj hne => ?_⟩
  apply classifyPredict_heat_some
  rw [classifyPredict_fst]
  show deriveStatus low high (dominantSelect pC pCj).1 = .risk ∨
    deriveStatus low high (dominantSelect pC pCj).1 = .detected
  rcases deriveStatus_cases low high (dominantSelect pC pCj).1 with h | h | h
  · exact Or.inr h
  · exact Or.inl h
  · exact absurd h hne

/-- Witness for C6: a 1-channel 2×2 activation tensor with an all-zero
gradient tensor; the saliency map maximum is zero and the classifier still
produces a blended heatmap image for a Detected-status forward pass. -/
theorem C6_zero_gradient_guard_witness :
    matMax (camHeatmap [[[1, 2], [3, 4]]] [[[0, 0], [0, 0]]]) = 0 ∧
    (gradCamGenerate (fun q => (q, q, q)) (fun _ m => m)
      (some [[[1, 2], [3, 4]]]) (some [[[0, 0], [0, 0]]]) (2, 2)).isSome = true ∧
    (classifyPredict 0 1 (fun q => (q, q, q)) (fun _ m => m)
      ⟨2, 0, [[[1, 2], [3, 4]]], fun _ => [[[0, 0], [0, 0]]]⟩
      ⟨[[(0, 0, 0), (0, 0, 0)], [(0, 0, 0), (0, 0, 0)]]⟩).2.isSome = true :=
  ⟨(C6_zero_gradient_guard [[[1, 2], [3, 4]]] [[[0, 0], [0, 0]]]
      (by decide)).1,
   (C6_zero_gradient_guard [[[1, 2], [3, 4]]] [[[0, 0], [0, 0]]]
      (by decide)).2.2.2.1 (fun q => (q, q, q)) (fun _ m => m) (2, 2),
   (C6_zero_gradient_guard [[[1, 2], [3, 4]]] [[[0, 0], [0, 0]]]
      (by decide)).2.2.2.2 0 1 (fun q => (q, q, q)) (fun _ m => m)
      ⟨[[(0, 0, 0), (0, 0, 0)], [(0, 0, 0), (0, 0, 0)]]⟩ 2 0 (by decide)⟩

/-- C4 names a code bug.  At the classifier level the attribution logic is
as claimed: `ClassifyModel.predict` computes no attribution image and
leaves `heatmap_image_url = None` for a Not-Detected result, and computes
the blended attribution image for a Risk result.  But no classification
result is ever *stored*: on every phase-2 run — here a Risk run on a
waiting report with crop handle `"c"` where every download and upload
succeeds — `run_cnn_phase` raises the pydantic `ValueError` at the
undeclared-field assignment `report.original_boxed_url = ...`
(image.py:320) before `report.cnn_result` is ever assigned, so the
`confirm_cnn` handler catches the exception and saves nothing. -/
theorem C4_attribution_computed_but_never_stored :
    (classifyPredict 1 3 (fun q => (q, q, q)) (fun _ m => m)
      ⟨0, 0, [], fun _ => []⟩ ⟨[[(0, 0, 0)]]⟩).1.status = .notDetected ∧
    (classifyPredict 1 3 (fun q => (q, q, q)) (fun _ m => m)
      ⟨0, 0, [], fun _ => []⟩ ⟨[[(0, 0, 0)]]⟩).2 = none ∧
    (classifyPredict 1 3 (fun q => (q, q, q)) (fun _ m => m)
      ⟨0, 0, [], fun _ => []⟩ ⟨[[(0, 0, 0)]]⟩).1.heatmap_image_url = none ∧
    (classifyPredict 1 3 (fun q => (q, q, q)) (fun _ m => m)
      ⟨2, 0, [[[1]]], fun _ => [[[1]]]⟩ ⟨[[(0, 0, 0)]]⟩).1.status = .risk ∧
    (classifyPredict 1 3 (fun q => (q, q, q)) (fun _ m => m)
      ⟨2, 0, [[[1]]], fun _ => [[[1]]]⟩ ⟨[[(0, 0, 0)]]⟩).2.isSome = true ∧
    runCnnPhase ⟨fun _ => some "b", fun _ => some ⟨[[(0, 0, 0)]]⟩⟩
        (fun img => classifyPredict 1 3 (fun q => (q, q, q)) (fun _ m => m)
          ⟨2, 0, [[[1]]], fun _ => [[[1]]]⟩ img)
        ⟨"r", "u", 0, .waitingUser, "o",
          some ⟨true, 1, some (0, 0, 1, 1), some "c"⟩, none, none⟩ =
      .error .boxedFieldRaised ∧
    (confirmCnn ⟨fun _ => some "b", fun _ => some ⟨[[(0, 0, 0)]]⟩⟩
        (fun img => classifyPredict 1 3 (fun q => (q, q, q)) (fun _ m => m)
          ⟨2, 0, [[[1]]], fun _ => [[[1]]]⟩ img)
        (fun _ => some ⟨"r", "u", 0, .waitingUser, "o",
          some ⟨true, 1, some (0, 0, 1, 1), some "c"⟩, none, none⟩)
        "r").savedReport = none :=
  ⟨by rfl, by rfl, by rfl, by rfl, by rfl, by rfl, by rfl⟩

/-- C9 names a code bug.  No report is ever taken through phase 2:
`run_cnn_phase` never returns normally (first conjunct), because every run
raises — at the latest the pydantic `ValueError` of
`report.original_boxed_url = ...` (image.py:320), before the
`report.cnn_result` and `report.current_status` assignments of the frame
claim are reached.  Concretely, phase 1 saves a waiting report whose
classification fragment is `None`, and confirming it invokes the
classifier but ends in the caught exception: the handler replies with the
generic error and saves nothing, so the stored report never gains a
classification fragment and never advances to `completed`. -/
theorem C9_phase2_never_writes :
    (∀ (env : GcsEnv) (cnn : CvImage → CnnResult × Option ColorImg)
        (report : DiagnosticReport),
      ∃ e : CnnPhaseError, runCnnPhase env cnn report = .error e) ∧
    runYoloPhase ⟨fun _ => some "c", fun _ => some ⟨[[(0, 0, 0)]]⟩⟩
        "u" "r" 0 (some ⟨[[(0, 0, 0)]]⟩)
        (fun _ => ⟨true, 1, some (0, 0, 1, 1), none⟩) =
      .ok ⟨"r", "u", 0, .waitingUser, "c",
            some ⟨true, 1, some (0, 0, 1, 1), some "c"⟩, none, none⟩ ∧
    confirmCnn ⟨fun _ => some "c", fun _ => some ⟨[[(0, 0, 0)]]⟩⟩
        (fun _ => (⟨.notDetected, .noneType, 0, 0, 0, none⟩, none))
        (fun _ => some ⟨"r", "u", 0, .waitingUser, "c",
          some ⟨true, 1, some (0, 0, 1, 1), some "c"⟩, none, none⟩)
        "r" = ⟨none, .errorMsg, true⟩ :=
  ⟨runCnnPhase_never_ok, by rfl, by rfl⟩

/-- C3: the `confirm_cnn` postback path fails without ever reaching the
classifier in both failure situations: an unknown `report_id` (the store
returns `None`) produces the "record not found" reply, and a stored report
that is neither awaiting confirmation nor completed (i.e. `failed`, the
only other stored status) is rejected by the phase-2 crop gate with the
`ValueError`, producing the generic error reply; in both outcomes
`classifierInvoked = false` and nothing is saved. -/
theorem C3_confirm_failure_paths (env : GcsEnv)
    (cnn : CvImage → CnnResult × Option ColorImg)
    (store : String → Option DiagnosticReport) (reportId : String) :
    (store reportId = none →
      confirmCnn env cnn store reportId = ⟨none, .notFoundMsg, false⟩) ∧
    (∀ r, store reportId = some r → StoredWellFormed r →
      r.current_status ≠ .waitingUser → r.current_status ≠ .completed →
      confirmCnn env cnn store reportId = ⟨none, .errorMsg, false⟩) := by
  constructor
  · intro hn
    unfold confirmCnn
    rw [hn]
  · intro r hr hwf hnw hnc
    have hfailed : r.current_status = .failed := by
      rcases hwf.1 with h | h | h
      · exact absurd h hnw
      · exact h
      · exact absurd h hnc
    have hmc : runCnnPhase env cnn r = .error .missingCrop :=
      runCnnPhase_missingCrop (hwf.2.1 hfailed) env cnn
    unfold confirmCnn
    rw [hr]
    simp only [hmc]
    rfl

/-- Witness for C3: an empty store gives the not-found outcome, and a
store holding a `failed` report (Scenario B shape) gives the error outcome;
neither invokes the classifier. -/
theorem C3_confirm_failure_paths_witness :
    confirmCnn ⟨fun _ => some "b", fun _ => none⟩
        (fun _ => (⟨.notDetected, .noneType, 0, 0, 0, none⟩, none))
        (fun _ => none) "missing" = ⟨none, .notFoundMsg, false⟩ ∧
    confirmCnn ⟨fun _ => some "b", fun _ => none⟩
        (fun _ => (⟨.notDetected, .noneType, 0, 0, 0, none⟩, none))
        (fun _ => some ⟨"r", "u", 0, .failed, "o",
          some ⟨false, 0, none, none⟩, none, none⟩) "r" =
      ⟨none, .errorMsg, false⟩ :=
  ⟨(C3_confirm_failure_paths ⟨fun _ => some "b", fun _ => none⟩
      (fun _ => (⟨.notDetected, .noneType, 0, 0, 0, none⟩, none))
      (fun _ => none) "missing").1 rfl,
   (C3_confirm_failure_paths ⟨fun _ => some "b", fun _ => none⟩
      (fun _ => (⟨.notDetected, .noneType, 0, 0, 0, none⟩, none))
      (fun _ => some ⟨"r", "u", 0, .failed, "o",
        some ⟨false, 0, none, none⟩, none, none⟩) "r").2
      ⟨"r", "u", 0, .failed, "o", some ⟨false, 0, none, none⟩, none, none⟩
      rfl
      (by unfold StoredWellFormed
          refine ⟨Or.inr (Or.inl rfl), ⟨fun _ => rfl, fun y hy htr => ?_⟩⟩
          cases hy
          exact nomatch htr)
      (by decide) (by decide)⟩

/-- C2 (amended): the `confirm_cnn` postback path performs no
completed-state check; confirming an already-`COMPLETED` report whose crop
handle is present and downloadable re-runs phase 2 and re-invokes the
Classifier.  The re-run then invariably fails — at the latest at the
undeclared-field assignment `report.original_boxed_url = ...`
(image.py:320) — so the handler replies with the generic error and saves
nothing: the call is not an idempotent read-back of the stored
`ClassificationResult`. -/
theorem C2_amended_confirm_reruns (env : GcsEnv)
    (cnn : CvImage → CnnResult × Option ColorImg)
    (store : String → Option DiagnosticReport) (reportId : String)
    (r : DiagnosticReport) (y : YoloResult) (img : CvImage)
    (hr : store reportId = some r)
    (_hcomp : r.current_status = .completed)
    (hy : r.yolo_result = some y)
    (ht : truthyStr y.crop_image_url = true)
    (hd : env.download (y.crop_image_url.getD "") = some img) :
    confirmCnn env cnn store reportId = ⟨none, .errorMsg, true⟩ := by
  have haux := runCnnPhase_classifier_reached cnn hy ht hd
  unfold confirmCnn
  rw [hr]
  dsimp only
  cases hrc : runCnnPhase env cnn r with
  | ok fr =>
      obtain ⟨e, he⟩ := runCnnPhase_never_ok env cnn r
      rw [he] at hrc
      cases hrc
  | error e =>
      dsimp only
      rw [hrc] at haux
      rw [haux]

/-- Witness for C2's amended statement: a store holding one completed
report with crop handle `"c"`; the confirmation re-invokes the classifier
and ends in the error reply with nothing saved. -/
theorem C2_amended_confirm_reruns_witness :
    confirmCnn ⟨fun _ => some "b2", fun _ => some ⟨[[(0, 0, 0)]]⟩⟩
        (fun _ => (⟨.notDetected, .cataract, 0, 0, 0, none⟩, none))
        (fun _ => some ⟨"r1", "u", 0, .completed, "o",
          some ⟨true, 1, some (0, 0, 1, 1), some "c"⟩,
          some ⟨.notDetected, .conjunctivitis, 0, 0, 0, none⟩, none⟩)
        "r1" = ⟨none, .errorMsg, true⟩ :=
  C2_amended_confirm_reruns ⟨fun _ => some "b2", fun _ => some ⟨[[(0, 0, 0)]]⟩⟩
    (fun _ => (⟨.notDetected, .cataract, 0, 0, 0, none⟩, none))
    (fun _ => some ⟨"r1", "u", 0, .completed, "o",
      some ⟨true, 1, some (0, 0, 1, 1), some "c"⟩,
      some ⟨.notDetected, .conjunctivitis, 0, 0, 0, none⟩, none⟩) "r1"
    ⟨"r1", "u", 0, .completed, "o",
      some ⟨true, 1, some (0, 0, 1, 1), some "c"⟩,
      some ⟨.notDetected, .conjunctivitis, 0, 0, 0, none⟩, none⟩
    ⟨true, 1, some (0, 0, 1, 1), some "c"⟩ ⟨[[(0, 0, 0)]]⟩
    rfl rfl rfl (by decide) rfl

/-- Counterexample to C2 as stated: confirming the already-completed report
`"r1"` a second time **does** re-invoke the classifier
(`classifierInvoked = true`), and far from returning the stored
`ClassificationResult`, the attempt ends in the generic error reply with
nothing saved (the re-run raises at the undeclared-field assignment of
image.py:320) — so the second call is neither classifier-free nor an
idempotent read-back. -/
theorem C2_counterexample :
    (confirmCnn ⟨fun _ => some "b2", fun _ => some ⟨[[(0, 0, 0)]]⟩⟩
        (fun _ => (⟨.notDetected, .cataract, 0, 0, 0, none⟩, none))
        (fun _ => some ⟨"r1", "u", 0, .completed, "o",
          some ⟨true, 1, some (0, 0, 1, 1), some "c"⟩,
          some ⟨.notDetected, .conjunctivitis, 0, 0, 0, none⟩, none⟩)
        "r1").classifierInvoked = true ∧
    confirmCnn ⟨fun _ => some "b2", fun _ => some ⟨[[(0, 0, 0)]]⟩⟩
        (fun _ => (⟨.notDetected, .cataract, 0, 0, 0, none⟩, none))
        (fun _ => some ⟨"r1", "u", 0, .completed, "o",
          some ⟨true, 1, some (0, 0, 1, 1), some "c"⟩,
          some ⟨.notDetected, .conjunctivitis, 0, 0, 0, none⟩, none⟩)
        "r1" = ⟨none, .errorMsg, true⟩ :=
  ⟨by rfl, by rfl⟩

/-- C7 (amended): when the crop blob upload raises after a successful
detection, the exception propagates out of `run_yolo_phase` and
`handle_image_message` saves **no** report at all (the user gets the error
reply) — the report's state does not become `FAILED`; and when the blob
upload succeeds but signed-URL generation fails, `_upload_to_gcs` returns
the empty string, the report still transitions to `waiting_for_user` with
crop handle `""`, and that handle is exactly what the phase-2 gate rejects
— so a report can be left awaiting confirmation without a retrievable
crop handle. -/
theorem C7_amended_crop_persistence (env : GcsEnv) (userId reportId : String)
    (ts : Int) (img : CvImage) (yolo : CvImage → YoloResult)
    (x1 y1 x2 y2 : Int) (originalUrl : String)
    (hup : env.upload "original" = some originalUrl)
    (hdet : (yolo img).is_detected = true)
    (hbb : (yolo img).bbox = some (x1, y1, x2, y2))
    (hsz : cvSize (clampedCrop img x1 y1 x2 y2) > 0) :
    (env.upload "crops" = none →
      handleImageMessage env userId reportId ts (some img) yolo =
        (none, .errorMsg)) ∧
    (env.upload "crops" = some "" →
      runYoloPhase env userId reportId ts (some img) yolo =
        .ok ⟨reportId, userId, ts, .waitingUser, originalUrl,
              some { yolo img with crop_image_url := some "" },
              none, none⟩ ∧
      truthyStr (some "") = false ∧
      (∀ (env' : GcsEnv) cnn,
        runCnnPhase env' cnn ⟨reportId, userId, ts, .waitingUser, originalUrl,
            some { yolo img with crop_image_url := some "" },
            none, none⟩ = .error .missingCrop)) := by
  constructor
  · intro hcn
    unfold handleImageMessage runYoloPhase
    simp [hup, hdet, hbb, hsz, hcn]
  · intro hce
    refine ⟨?_, rfl, fun env' cnn => runCnnPhase_missingCrop (by rfl) env' cnn⟩
    unfold runYoloPhase
    simp [hup, hdet, hbb, hsz, hce]

/-- Witness for C7's amended statement: a 1×1 image, a detected box
`(0,0,1,1)`, an uploader whose signed-URL generation fails for the crop
(returns `""`); the phase succeeds into `waiting_for_user` with the empty
crop handle. -/
theorem C7_amended_crop_persistence_witness :
    runYoloPhase ⟨fun f => if f = "original" then some "o" else some "",
        fun _ => none⟩ "u" "r" 0 (some ⟨[[(0, 0, 0)]]⟩)
        (fun _ => ⟨true, 1, some (0, 0, 1, 1), none⟩) =
      .ok ⟨"r", "u", 0, .waitingUser, "o",
            some ⟨true, 1, some (0, 0, 1, 1), some ""⟩, none, none⟩ :=
  ((C7_amended_crop_persistence
      ⟨fun f => if f = "original" then some "o" else some "", fun _ => none⟩
      "u" "r" 0 ⟨[[(0, 0, 0)]]⟩ (fun _ => ⟨true, 1, some (0, 0, 1, 1), none⟩)
      0 0 1 1 "o" rfl rfl rfl (by decide)).2 rfl).1

/-- Counterexample to C7 as stated: with a signed-URL failure on the crop
upload (the uploader returns `""` for every folder except the original),
phase 1 leaves the report in `waiting_for_user` — not `FAILED` — with crop
handle `""`, and phase 2 itself rejects that handle as a missing crop, so
an awaiting-confirmation report exists without a retrievable crop handle. -/
theorem C7_counterexample :
    runYoloPhase ⟨fun f => if f = "original" then some "o" else some "",
        fun _ => none⟩ "u" "r" 0 (some ⟨[[(0, 0, 0)]]⟩)
        (fun _ => ⟨true, 1, some (0, 0, 1, 1), none⟩) =
      .ok ⟨"r", "u", 0, .waitingUser, "o",
            some ⟨true, 1, some (0, 0, 1, 1), some ""⟩, none, none⟩ ∧
    (⟨"r", "u", 0, .waitingUser, "o",
        some ⟨true, 1, some (0, 0, 1, 1), some ""⟩, none,
        none⟩ : DiagnosticReport).current_status ≠ .failed ∧
    runCnnPhase ⟨fun _ => some "x", fun _ => some ⟨[[(0, 0, 0)]]⟩⟩
        (fun _ => (⟨.notDetected, .noneType, 0, 0, 0, none⟩, none))
        ⟨"r", "u", 0, .waitingUser, "o",
          some ⟨true, 1, some (0, 0, 1, 1), some ""⟩, none, none⟩ =
      .error .missingCrop := by
  refine ⟨by rfl, by decide, by rfl⟩

end Eyeskimo
